import Mathlib

/-!
# Controle de gastos: entry store (server.js) and balance display (script.js)

A shallow embedding of the Express handlers of `server.js` and of the balance
computation, period filter, display order, daily totals and category totals of
`script.js`.

Modelling conventions.

* JavaScript numbers are exact rationals: the binary rounding of IEEE doubles is
  not represented, and `NaN` and the infinities do not occur.
* A body field is a JSON scalar or `undefined` (`JVal`); arrays and objects as
  field values are outside the model.
* `dados.txt` is represented by what it holds (`Arquivo`): no file, a ledger
  that `JSON.parse` gives back, or content that cannot be read or parsed. A
  disk also records whether `fs.writeFileSync` succeeds (`gravavel`).
* `gerarId()` reads the clock and a random source; the identifier it returns is
  an argument of the handler that calls it.
* A `TypeError` thrown inside a handler is caught by the handler's own
  `try/catch`, which answers 500; partial functions return `Option`, `none`
  standing for the throw.
-/

namespace ControleDeGastos

/-! ## Values -/

/-- A destructured field of `req.body`: a JSON scalar, or `undefined` when the
key is absent. -/
inductive JVal
  | undefined
  | null
  | bool (b : Bool)
  | num (q : ℚ)
  | str (s : String)
  deriving DecidableEq

/-- JavaScript `ToBoolean`: the value in a condition, under `!`, `&&`, `||`. -/
def JVal.truthy : JVal → Bool
  | .undefined => false
  | .null => false
  | .bool b => b
  | .num q => decide (q ≠ 0)
  | .str s => decide (s ≠ "")

/-- The test `typeof v === 'number'`. -/
def JVal.ehNumero : JVal → Bool
  | .num _ => true
  | _ => false

/-- The numeric payload of a value known to be a number (0 otherwise; the
handlers read it only behind a `typeof` test or a truthiness test that follows
one). -/
def JVal.numero : JVal → ℚ
  | .num q => q
  | _ => 0

/-- The text of a value known to be a string (empty otherwise; the handlers read
it only after a test that only a string passes). -/
def JVal.texto : JVal → String
  | .str s => s
  | _ => ""

/-- The test `['gasto', 'receita'].includes(v)`: `includes` compares with
SameValueZero, so only the two strings themselves are found. -/
def incluiTipo (v : JVal) : Bool :=
  v == .str "gasto" || v == .str "receita"

/-- ECMAScript WhiteSpace and LineTerminator code points, the characters
`String.prototype.trim` strips. -/
def espacoJS (c : Char) : Bool :=
  let n := c.toNat
  n == 9 || n == 10 || n == 11 || n == 12 || n == 13 || n == 32 || n == 160 ||
  n == 5760 || (decide (8192 ≤ n) && decide (n ≤ 8202)) || n == 8232 || n == 8233 ||
  n == 8239 || n == 8287 || n == 12288 || n == 65279

/-- The method `String.prototype.trim` on a list of characters. -/
def trimChars (cs : List Char) : List Char :=
  ((cs.dropWhile espacoJS).reverse.dropWhile espacoJS).reverse

/-- The method `String.prototype.trim`. -/
def trim (s : String) : String :=
  String.mk (trimChars s.data)

/-- The call `v.trim()` on an arbitrary value: only strings have the method;
on `undefined`, `null`, a boolean or a number the call throws a `TypeError`
(`none`). -/
def chamarTrim : JVal → Option String
  | .str s => some (trim s)
  | _ => none

/-- The expression `valor.toFixed(2)` as the integer number of hundredths it
prints: the integer `n` with `n / 100` closest to the value, the larger `n` on a
tie, computed on the absolute value with the sign put back. -/
def toFixed2 (x : ℚ) : ℤ :=
  if x < 0 then -⌊(-x) * 100 + 1 / 2⌋ else ⌊x * 100 + 1 / 2⌋

/-- The expression `parseFloat(valor.toFixed(2))`. -/
def arredondar (x : ℚ) : ℚ :=
  (toFixed2 x : ℚ) / 100

/-! ## Ledger and storage -/

/-- One entry of `lancamentos`. -/
structure Lancamento where
  id : String
  tipo : String
  valor : ℚ
  categoria : String
  descricao : String
  data : String
  deriving DecidableEq

/-- The object kept in `dados.txt`. -/
structure Dados where
  saldo : ℚ
  lancamentos : List Lancamento
  deriving DecidableEq

/-- What `dados.txt` is at a given moment. -/
inductive Arquivo
  | ausente
  | valido (dados : Dados)
  | ilegivel (conteudo : String)
  deriving DecidableEq

/-- The storage medium: the file, and whether writing to it succeeds. -/
structure Disco where
  arquivo : Arquivo
  gravavel : Bool
  deriving DecidableEq

/-- The literal `{ saldo: 0, lancamentos: [] }`. -/
def dadosIniciais : Dados :=
  { saldo := 0, lancamentos := [] }

/-- Function `lerDados`: creates the file when it does not exist; any exception
(a failed read, a failed parse, a failed initial write) is caught and the
initial ledger is returned. -/
def lerDados (d : Disco) : Dados × Disco :=
  match d.arquivo with
  | .ausente =>
    if d.gravavel then (dadosIniciais, { d with arquivo := .valido dadosIniciais })
    else (dadosIniciais, d)
  | .valido x => (x, d)
  | .ilegivel _ => (dadosIniciais, d)

/-- Function `salvarDados`: overwrites the whole file; `false` when the write
throws. -/
def salvarDados (dados : Dados) (d : Disco) : Bool × Disco :=
  if d.gravavel then (true, { d with arquivo := .valido dados }) else (false, d)

/-! ## Date validation -/

/-- The test `/^\d{4}-\d{2}-\d{2}$/.test(s)` on the characters of `s`. -/
def regexData : List Char → Bool
  | [a, b, c, d, h1, e, f, h2, g, h] =>
    a.isDigit && b.isDigit && c.isDigit && d.isDigit && h1 == '-' &&
    e.isDigit && f.isDigit && h2 == '-' && g.isDigit && h.isDigit
  | _ => false

/-- The number a decimal digit stands for. -/
def digito (c : Char) : Nat :=
  c.toNat - 48

/-- Month field of a string that passed `regexData` (characters 5 and 6). -/
def mesDe (cs : List Char) : Nat :=
  10 * digito (cs.getD 5 '0') + digito (cs.getD 6 '0')

/-- Day field of a string that passed `regexData` (characters 8 and 9). -/
def diaDe (cs : List Char) : Nat :=
  10 * digito (cs.getD 8 '0') + digito (cs.getD 9 '0')

/-- Whether `new Date(s)` is a valid date (`!isNaN(d)`) for a string of the
shape `dddd-dd-dd`, as Node's engine (V8) parses it: the date parser accepts an
ISO date whose month is in 1..12 and whose day is in 1..31, whatever the month,
and a day past the end of the month rolls over into the next month. -/
def novaDataValida (cs : List Char) : Bool :=
  decide (1 ≤ mesDe cs) && decide (mesDe cs ≤ 12) &&
  decide (1 ≤ diaDe cs) && decide (diaDe cs ≤ 31)

/-- Function `validarData` on a string. -/
def validarData (s : String) : Bool :=
  if !regexData s.data then false else novaDataValida s.data

/-- Function `validarData` on an arbitrary field value: `regex.test` converts
its argument to a string, and the string form of `undefined`, `null`, a boolean
or a number never has the shape `dddd-dd-dd`. -/
def validarDataJ : JVal → Bool
  | .str s => validarData s
  | _ => false

/-! ## Requests and responses -/

/-- The fields the handlers destructure from `req.body`. -/
structure Corpo where
  tipo : JVal
  valor : JVal
  categoria : JVal
  descricao : JVal
  data : JVal
  saldo : JVal
  deriving DecidableEq

/-- A body with no field at all. -/
def corpoVazio : Corpo :=
  { tipo := .undefined, valor := .undefined, categoria := .undefined,
    descricao := .undefined, data := .undefined, saldo := .undefined }

/-- What a handler sends back: the status code and the JSON payload. -/
inductive Resposta
  | dados (status : Nat) (d : Dados)
  | saldo (status : Nat) (s : ℚ)
  | lancamento (status : Nat) (l : Lancamento)
  | mensagem (status : Nat) (m : String)
  | erro (status : Nat) (m : String)
  deriving DecidableEq

/-- The method `Array.prototype.findIndex`; `none` stands for the result -1. -/
def findIndex {α : Type} (p : α → Bool) : List α → Option Nat
  | [] => none
  | x :: xs => if p x then some 0 else (findIndex p xs).map (· + 1)

/-! ## Handlers of server.js -/

/-- Handler of `GET /api/dados`. -/
def getDados (d : Disco) : Resposta × Disco :=
  let r := lerDados d
  (.dados 200 r.1, r.2)

/-- Handler of `POST /api/saldo`. -/
def postSaldo (c : Corpo) (d : Disco) : Resposta × Disco :=
  if !c.saldo.ehNumero then (.erro 400 "Saldo deve ser um número válido", d)
  else
    let r := lerDados d
    let dados : Dados := { r.1 with saldo := c.saldo.numero }
    let w := salvarDados dados r.2
    if !w.1 then (.erro 500 "Erro ao salvar saldo", w.2)
    else (.saldo 200 dados.saldo, w.2)

/-- The condition `!categoria || categoria.trim() === ''` of the create handler;
`none` when `categoria.trim()` throws. -/
def categoriaVazia (v : JVal) : Option Bool :=
  if !v.truthy then some true else (chamarTrim v).map (fun t => t == "")

/-- The expression `(descricao || '').trim()` of the create handler; `none`
when the call throws. -/
def descricaoTrim (v : JVal) : Option String :=
  if v.truthy then chamarTrim v else some (trim "")

/-- Handler of `POST /api/lancamentos`; `novoId` is the value of `gerarId()`. -/
def postLancamentos (novoId : String) (c : Corpo) (d : Disco) : Resposta × Disco :=
  if !c.tipo.truthy || !incluiTipo c.tipo then
    (.erro 400 "Tipo deve ser \"gasto\" ou \"receita\"", d)
  else if !c.valor.ehNumero || decide (c.valor.numero ≤ 0) then
    (.erro 400 "Valor deve ser maior que zero", d)
  else
    match categoriaVazia c.categoria with
    | none => (.erro 500 "Erro ao criar lançamento", d)
    | some true => (.erro 400 "Categoria é obrigatória", d)
    | some false =>
      if !c.data.truthy || !validarDataJ c.data then
        (.erro 400 "Data inválida (use YYYY-MM-DD)", d)
      else
        match chamarTrim c.categoria, descricaoTrim c.descricao with
        | some cat, some desc =>
          let novoLancamento : Lancamento :=
            { id := novoId, tipo := c.tipo.texto, valor := arredondar c.valor.numero,
              categoria := cat, descricao := desc, data := c.data.texto }
          let r := lerDados d
          let dados : Dados := { r.1 with lancamentos := r.1.lancamentos ++ [novoLancamento] }
          let w := salvarDados dados r.2
          if !w.1 then (.erro 500 "Erro ao salvar lançamento", w.2)
          else (.lancamento 201 novoLancamento, w.2)
        | _, _ => (.erro 500 "Erro ao criar lançamento", d)

/-- The five conditional assignments of the update handler, in source order, on
the entry found; `none` when one of the two `trim()` calls throws. -/
def aplicarCampos (c : Corpo) (l : Lancamento) : Option Lancamento :=
  let l1 := if c.tipo.truthy then { l with tipo := c.tipo.texto } else l
  let l2 := if c.valor.truthy then { l1 with valor := arredondar c.valor.numero } else l1
  let l3 : Option Lancamento :=
    if c.categoria.truthy then (chamarTrim c.categoria).map (fun t => { l2 with categoria := t })
    else some l2
  let l4 : Option Lancamento :=
    l3.bind (fun x =>
      if c.descricao ≠ .undefined then
        (chamarTrim c.descricao).map (fun t => { x with descricao := t })
      else some x)
  l4.map (fun x => if c.data.truthy then { x with data := c.data.texto } else x)

/-- Handler of `PUT /api/lancamentos/:id`. -/
def putLancamentos (id : String) (c : Corpo) (d : Disco) : Resposta × Disco :=
  if c.tipo.truthy && !incluiTipo c.tipo then
    (.erro 400 "Tipo deve ser \"gasto\" ou \"receita\"", d)
  else if decide (c.valor ≠ .undefined) && (!c.valor.ehNumero || decide (c.valor.numero ≤ 0)) then
    (.erro 400 "Valor deve ser maior que zero", d)
  else if c.data.truthy && !validarDataJ c.data then
    (.erro 400 "Data inválida (use YYYY-MM-DD)", d)
  else
    let r := lerDados d
    match findIndex (fun l => l.id == id) r.1.lancamentos with
    | none => (.erro 404 "Lançamento não encontrado", r.2)
    | some indice =>
      match (r.1.lancamentos.get? indice).bind (aplicarCampos c) with
      | none => (.erro 500 "Erro ao atualizar lançamento", r.2)
      | some l =>
        let dados : Dados := { r.1 with lancamentos := r.1.lancamentos.set indice l }
        let w := salvarDados dados r.2
        if !w.1 then (.erro 500 "Erro ao atualizar lançamento", w.2)
        else (.lancamento 200 l, w.2)

/-- A writable disk holding the initial ledger. -/
def discoInicial : Disco :=
  { arquivo := .valido dadosIniciais, gravavel := true }

/-- An entry with a positive amount. -/
def lancamentoUm : Lancamento :=
  { id := "a1", tipo := "gasto", valor := 10, categoria := "food", descricao := "",
    data := "2024-03-05" }

/-- A writable disk whose ledger has saldo 100 and the single entry `lancamentoUm`. -/
def discoUm : Disco :=
  { arquivo := .valido { saldo := 100, lancamentos := [lancamentoUm] }, gravavel := true }

/-- A create request whose amount 0.004 is greater than 0 and rounds to 0.00. -/
def exemploValorMinimo : Corpo :=
  { tipo := .str "gasto", valor := .num (1 / 250), categoria := .str "food",
    descricao := .undefined, data := .str "2024-03-05", saldo := .undefined }

/-- An update request whose only field is a categoria of three spaces. -/
def exemploCategoriaEspacos : Corpo :=
  { corpoVazio with categoria := .str "   " }

/-- An update request whose only field is the empty string as tipo. -/
def exemploTipoVazio : Corpo :=
  { corpoVazio with tipo := .str "" }

/-- A writable disk whose file holds truncated JSON, which `JSON.parse` rejects. -/
def discoIlegivel : Disco :=
  { arquivo := .ilegivel "\x7b \"saldo\": 250, \"lancamentos\": [", gravavel := true }

/-- A create request that passes every check. -/
def exemploValido : Corpo :=
  { tipo := .str "gasto", valor := .num 30, categoria := .str "food",
    descricao := .undefined, data := .str "2024-03-05", saldo := .undefined }

/-- Year field of a string that passed `regexData` (characters 0 to 3). -/
def anoDe (cs : List Char) : Nat :=
  1000 * digito (cs.getD 0 '0') + 100 * digito (cs.getD 1 '0') +
  10 * digito (cs.getD 2 '0') + digito (cs.getD 3 '0')

/-- Leap years of the Gregorian calendar, as the specification words the calendar:
divisible by 4 and not by 100, or divisible by 400. -/
def anoBissexto (ano : Nat) : Bool :=
  (ano % 4 == 0 && ano % 100 != 0) || ano % 400 == 0

/-- Number of days of a month of a year, as the specification words the calendar. -/
def diasNoMes (ano mes : Nat) : Nat :=
  if mes == 2 then (if anoBissexto ano then 29 else 28)
  else if mes == 4 || mes == 6 || mes == 9 || mes == 11 then 30
  else 31

/-- A real calendar date in the form YYYY-MM-DD, as the specification words it: the
shape `dddd-dd-dd`, month 01..12, day 01..number of days of that month in that
year. This is the specification's notion, which `validarData` is compared
with. -/
def dataDeCalendario (s : String) : Bool :=
  regexData s.data && decide (1 ≤ mesDe s.data) && decide (mesDe s.data ≤ 12) &&
  decide (1 ≤ diaDe s.data) && decide (diaDe s.data ≤ diasNoMes (anoDe s.data) (mesDe s.data))

/-! ## Dates as script.js reads them -/

/-- The values `getFullYear()`, `getMonth() + 1` and `getDate()` of
`new Date(s + 'T00:00:00')`, a local date-time, as V8 parses it for a string `s`
of the shape `dddd-dd-dd`: month 01..12 and day 01..31 are accepted, the year is
taken as written, and a day past the end of the month rolls over into the next
month (only months shorter than 31 days can overflow, so the year never
changes). `none` stands for an invalid Date, whose getters return NaN. A string
without that shape is outside the model and is given `none`; time-zone
transitions that skip a local midnight are not modelled. -/
def camposLocais (s : String) : Option (Nat × Nat × Nat) :=
  if regexData s.data && novaDataValida s.data then
    let ano := anoDe s.data
    let mes := mesDe s.data
    let dia := diaDe s.data
    if dia ≤ diasNoMes ano mes then some (ano, mes, dia)
    else some (ano, mes + 1, dia - diasNoMes ano mes)
  else none

/-- Number of days from 1 January of year 0 to 1 January of year `y` in the
proleptic Gregorian calendar, the calendar of the Date object. -/
def diasAntesDoAno (y : Nat) : Nat :=
  365 * y + (y + 3) / 4 - (y + 99) / 100 + (y + 399) / 400

/-- Number of days from 1 January of year `y` to the first day of month `m`
(1..12) of that year. -/
def diasAntesDoMes (y m : Nat) : Nat :=
  (match m with
    | 1 => 0 | 2 => 31 | 3 => 59 | 4 => 90 | 5 => 120 | 6 => 151 | 7 => 181
    | 8 => 212 | 9 => 243 | 10 => 273 | 11 => 304 | _ => 334)
  + (if decide (2 < m) && anoBissexto y then 1 else 0)

/-- The time value of `new Date(s)` for a date-only string `s` of the shape
`dddd-dd-dd`, which is read as UTC midnight: milliseconds since 1 January 1970
(day 719528 counted from 1 January of year 0). A day past the end of the month
simply counts on into the next month. `none` stands for NaN (invalid Date); a
string without that shape is outside the model and is given `none`. -/
def tempoDe (s : String) : Option Int :=
  if regexData s.data && novaDataValida s.data then
    some (86400000 *
      (((diasAntesDoAno (anoDe s.data) + diasAntesDoMes (anoDe s.data) (mesDe s.data)
          + (diaDe s.data - 1) : Nat) : Int) - 719528))
  else none

/-! ## Period filter and display order of script.js -/

/-- The globals `filtroMes` (`null` or a string) and `filtroAno` (`null` or a
number; `none` also stands for NaN, which is as falsy as `null`). -/
structure Filtros where
  filtroMes : Option String
  filtroAno : Option Int
  deriving DecidableEq

/-- The method `String.prototype.split` with a one-character separator. -/
def separar (sep : Char) : List Char → List (List Char)
  | [] => [[]]
  | c :: cs =>
    if c == sep then [] :: separar sep cs
    else
      match separar sep cs with
      | p :: ps => (c :: p) :: ps
      | [] => [[c]]

/-- The conversion `Number(s)` of a string made of decimal digits only (the empty
string converts to 0). Any other string is outside the model and is given
`none`, as NaN. -/
def numeroDe (cs : List Char) : Option Nat :=
  if cs.all Char.isDigit then some (cs.foldl (fun n c => 10 * n + digito c) 0) else none

/-- The destructuring `[ano, mes] = filtroMes.split('-').map(Number)`; `none`
stands for `undefined` (no such part) or NaN. -/
def anoMesDoFiltro (s : String) : Option Nat × Option Nat :=
  let partes := (separar '-' s.data).map numeroDe
  (partes.getD 0 none, partes.getD 1 none)

/-- The test `d.getMonth() + 1 === mes && d.getFullYear() === ano` on an entry,
with `d = new Date(l.data + 'T00:00:00')`; NaN and `undefined` are strictly
equal to no number. -/
def noMes (ano mes : Option Nat) (l : Lancamento) : Bool :=
  match camposLocais l.data, ano, mes with
  | some (a, m, _), some ano, some mes => m == mes && a == ano
  | _, _, _ => false

/-- The test `d.getFullYear() === filtroAno` on an entry. -/
def noAno (filtroAno : Int) (l : Lancamento) : Bool :=
  match camposLocais l.data with
  | some (a, _, _) => (a : Int) == filtroAno
  | none => false

/-- Truthiness of `filtroMes`: a non-empty string. -/
def mesAtivo (f : Filtros) : Bool :=
  match f.filtroMes with
  | some s => decide (s ≠ "")
  | none => false

/-- Truthiness of `filtroAno`: a number other than 0. -/
def anoAtivo (f : Filtros) : Bool :=
  match f.filtroAno with
  | some y => decide (y ≠ 0)
  | none => false

/-- The `lancamentosFiltrados` of `renderizarLista` before the sort. -/
def lancamentosFiltrados (f : Filtros) (ls : List Lancamento) : List Lancamento :=
  if mesAtivo f then
    let am := anoMesDoFiltro (f.filtroMes.getD "")
    ls.filter (fun l => noMes am.1 am.2 l)
  else if anoAtivo f then
    ls.filter (fun l => noAno (f.filtroAno.getD 0) l)
  else ls

/-- The `lancamentosParaExportar` of `exportarCSV`. -/
def lancamentosParaExportar (f : Filtros) (ls : List Lancamento) : List Lancamento :=
  if mesAtivo f then
    let am := anoMesDoFiltro (f.filtroMes.getD "")
    ls.filter (fun l => noMes am.1 am.2 l)
  else if anoAtivo f then
    ls.filter (fun l => noAno (f.filtroAno.getD 0) l)
  else ls

/-- The conversion `parseInt(s)` of a string made of decimal digits only; the
empty string gives NaN (`none`). Any other string is outside the model and is
given `none`. -/
def parseIntDe (cs : List Char) : Option Int :=
  if cs.all Char.isDigit && !cs.isEmpty then
    some ((cs.foldl (fun n c => 10 * n + digito c) 0 : Nat) : Int)
  else none

/-- Function `aplicarFiltros`, on the values of the inputs `filtro-mes` and
`filtro-ano`: the globals it leaves. -/
def aplicarFiltros (mes ano : String) : Filtros :=
  if mes ≠ "" then { filtroMes := some mes, filtroAno := none }
  else if ano ≠ "" then { filtroMes := none, filtroAno := parseIntDe ano.data }
  else { filtroMes := none, filtroAno := none }

/-- The comparator `(a, b) => new Date(b.data) - new Date(a.data)` as the sort
reads it: a NaN result counts as 0. -/
def compararData (a b : Lancamento) : Int :=
  match tempoDe b.data, tempoDe a.data with
  | some tb, some ta => tb - ta
  | _, _ => 0

/-- Insertion of `x` before the first element it may precede. -/
def inserir {α : Type} (cmp : α → α → Int) (x : α) : List α → List α
  | [] => [x]
  | y :: ys => if cmp x y ≤ 0 then x :: y :: ys else y :: inserir cmp x ys

/-- The method `Array.prototype.sort` with a comparator. The language requires
the sort to be stable (since ECMAScript 2019), and with a consistent comparator
the result of a stable sort does not depend on the algorithm; it is computed
here by insertion from the right, each element going before the first element
it may precede. -/
def sort {α : Type} (cmp : α → α → Int) : List α → List α
  | [] => []
  | x :: xs => inserir cmp x (sort cmp xs)

/-- The list `renderizarLista` shows: filtered, then sorted by date, most recent
first. -/
def listaExibida (f : Filtros) (ls : List Lancamento) : List Lancamento :=
  sort compararData (lancamentosFiltrados f ls)

/-- The date `YYYY-MM-DD` as the number YYYYMMDD, whose order is the calendar
order of dates. -/
def chaveData (s : String) : Nat :=
  anoDe s.data * 10000 + mesDe s.data * 100 + diaDe s.data

/-- The shape of a month filter, `YYYY-MM`: four digits, '-', two digits. -/
def formaMes : List Char → Bool
  | [a, b, c, d, h, e, f] =>
    a.isDigit && b.isDigit && c.isDigit && d.isDigit && h == '-' && e.isDigit && f.isDigit
  | _ => false

/-- An entry dated 2024-03-31. -/
def lancamentoMarco : Lancamento :=
  { id := "m1", tipo := "gasto", valor := 7, categoria := "food", descricao := "",
    data := "2024-03-31" }

/-- An entry dated 2024-04-01. -/
def lancamentoAbril : Lancamento :=
  { id := "m2", tipo := "gasto", valor := 9, categoria := "food", descricao := "",
    data := "2024-04-01" }

/-- The month filter 2024-03 together with a year filter that is to be ignored. -/
def filtroMarco : Filtros :=
  { filtroMes := some "2024-03", filtroAno := some 1999 }

/-- No month filter and the year filter 0. -/
def filtroAnoZero : Filtros :=
  { filtroMes := none, filtroAno := some 0 }

/-! ## Daily totals of script.js -/

/-- The array index a property name stands for, if any: a canonical numeric
string (decimal digits, no leading zero unless it is "0") whose value is below
2^32 - 1. Such names are the ones an object lists first, in numeric order. -/
def indiceDeArray (k : String) : Option Nat :=
  let cs := k.data
  if cs.all Char.isDigit && !cs.isEmpty && (cs.length == 1 || cs.head? != some '0') then
    let n := cs.foldl (fun n c => 10 * n + digito c) 0
    if n < 4294967295 then some n else none
  else none

/-- Whether a new property name `k` is listed before the existing name `p` by
`Object.keys`: array indices come first in ascending numeric order, then the
other names in the order they were created. -/
def precede (k p : String) : Bool :=
  match indiceDeArray k, indiceDeArray p with
  | some i, some j => decide (i < j)
  | some _, none => true
  | none, _ => false

/-- Creation of the property `k` with value `v` in an object that does not have
it, the object being the list of its own properties in `Object.keys` order. -/
def criarPropriedade (k : String) (v : ℚ) : List (String × ℚ) → List (String × ℚ)
  | [] => [(k, v)]
  | p :: ps => if precede k p.1 then (k, v) :: p :: ps else p :: criarPropriedade k v ps

/-- The read `porCategoria[k]`; `none` stands for `undefined`. Names of
properties inherited from `Object.prototype` (such as `constructor` or
`toString`) are outside the model. -/
def lerPropriedade (o : List (String × ℚ)) (k : String) : Option ℚ :=
  (o.find? (fun p => p.1 == k)).map (fun p => p.2)

/-- The assignment `porCategoria[k] = v`: an existing property keeps its place,
a new one is created. -/
def definirPropriedade (o : List (String × ℚ)) (k : String) (v : ℚ) : List (String × ℚ) :=
  if o.any (fun p => p.1 == k) then o.map (fun p => if p.1 == k then (k, v) else p)
  else criarPropriedade k v o

/-- The body of the `forEach` of `atualizarGraficoCategorias` for one entry:
`if (!porCategoria[c]) porCategoria[c] = 0; porCategoria[c] += l.valor`, where
`undefined` and 0 are falsy. -/
def somarCategoria (o : List (String × ℚ)) (l : Lancamento) : List (String × ℚ) :=
  let o1 :=
    match lerPropriedade o l.categoria with
    | some q => if q = 0 then definirPropriedade o l.categoria 0 else o
    | none => definirPropriedade o l.categoria 0
  match lerPropriedade o1 l.categoria with
  | some q => definirPropriedade o1 l.categoria (q + l.valor)
  | none => o1

/-- The object `porCategoria` after the `forEach` over a list of expenses, as the
list of its properties in the order of `Object.keys` and `Object.values`. -/
def porCategoria (gastos : List Lancamento) : List (String × ℚ) :=
  gastos.foldl somarCategoria []

/-- The `gastosParaGrafico` of `atualizarGraficoCategorias`: the entries of tipo
'gasto', restricted to the month filter, else to the year filter, else to the
current month (`hojeAno`, `hojeMes` with January as 1). -/
def gastosParaGrafico (f : Filtros) (hojeAno hojeMes : Nat) (ls : List Lancamento) :
    List Lancamento :=
  let gastos := ls.filter (fun l => l.tipo == "gasto")
  if mesAtivo f then
    let am := anoMesDoFiltro (f.filtroMes.getD "")
    gastos.filter (fun l => noMes am.1 am.2 l)
  else if anoAtivo f then
    gastos.filter (fun l => noAno (f.filtroAno.getD 0) l)
  else gastos.filter (fun l => noMes (some hojeAno) (some hojeMes) l)

/-- The pair `categorias`, `valores` that `atualizarGraficoCategorias` charts. -/
def categoriasEValores (f : Filtros) (hojeAno hojeMes : Nat) (ls : List Lancamento) :
    List String × List ℚ :=
  let o := porCategoria (gastosParaGrafico f hojeAno hojeMes ls)
  (o.map (fun p => p.1), o.map (fun p => p.2))

/-- An entry of March 2024 with the given kind, category and amount. -/
def lancamentoDe (tipo categoria : String) (valor : ℚ) : Lancamento :=
  { id := "c", tipo := tipo, valor := valor, categoria := categoria, descricao := "",
    data := "2024-03-05" }

/-! ## Lemmas -/

/-- No month has more than 31 days. -/
theorem diasNoMes_le (ano mes : Nat) : diasNoMes ano mes ≤ 31 := by
  unfold diasNoMes
  split_ifs <;> omega

/-- Every real calendar date in the form YYYY-MM-DD is accepted by `validarData`. -/
theorem validarData_de_calendario (s : String) (h : dataDeCalendario s = true) :
    validarData s = true := by
  simp only [dataDeCalendario, Bool.and_eq_true, decide_eq_true_eq] at h
  obtain ⟨⟨⟨⟨h1, h2⟩, h3⟩, h4⟩, h5⟩ := h
  have := diasNoMes_le (anoDe s.data) (mesDe s.data)
  simp [validarData, novaDataValida, h1, h2, h3, h4]
  omega

/-! ## Claims -/

/-- C4 (code at the failing input): the amount 0.004 is greater than 0, so it passes
the check `valor <= 0`; the create handler answers 201 and stores an entry whose
valor is 0, next to an entry whose valor was positive; the update handler with
the same amount turns the stored valor 10 into 0. -/
theorem C4_valor_zero_armazenado :
    (0 : ℚ) < 1 / 250
    ∧ postLancamentos "id1" exemploValorMinimo discoUm
        = (.lancamento 201
            { id := "id1", tipo := "gasto", valor := 0, categoria := "food", descricao := "",
              data := "2024-03-05" },
           { arquivo := .valido
               { saldo := 100,
                 lancamentos :=
                   [lancamentoUm,
                    { id := "id1", tipo := "gasto", valor := 0, categoria := "food",
                      descricao := "", data := "2024-03-05" }] },
             gravavel := true })
    ∧ putLancamentos "a1" { corpoVazio with valor := .num (1 / 250) } discoUm
        = (.lancamento 200 { lancamentoUm with valor := 0 },
           { arquivo := .valido { saldo := 100, lancamentos := [{ lancamentoUm with valor := 0 }] },
             gravavel := true }) := by
  have hv : validarDataJ (.str "2024-03-05") = true := by decide
  have hc : categoriaVazia (.str "food") = some false := by decide
  have ht : trim "food" = "food" := by decide
  have hd : descricaoTrim .undefined = some "" := by decide
  refine ⟨by norm_num, ?_, ?_⟩
  · simp [postLancamentos, exemploValorMinimo, JVal.truthy, incluiTipo, JVal.ehNumero,
      JVal.numero, JVal.texto, hc, hv, chamarTrim, hd, ht, lerDados, salvarDados, discoUm]
    norm_num [arredondar, toFixed2]
  · simp [putLancamentos, corpoVazio, JVal.truthy, incluiTipo, JVal.ehNumero,
      JVal.numero, JVal.texto, lerDados, salvarDados, discoUm, lancamentoUm, findIndex,
      aplicarCampos]
    norm_num [arredondar, toFixed2]

/-- C6 (code at the failing input): the create handler rejects categoria '   ' with
400, but the update handler accepts it, answers 200 and stores the empty string
as categoria; the create handler rejects tipo '' with 400, but the update
handler answers 200 (leaving the entry as it was). -/
theorem C6_put_categoria_em_branco :
    postLancamentos "id1" { exemploValido with categoria := .str "   " } discoUm
        = (.erro 400 "Categoria é obrigatória", discoUm)
    ∧ putLancamentos "a1" exemploCategoriaEspacos discoUm
        = (.lancamento 200 { lancamentoUm with categoria := "" },
           { arquivo :=
               .valido { saldo := 100, lancamentos := [{ lancamentoUm with categoria := "" }] },
             gravavel := true })
    ∧ postLancamentos "id1" { exemploValido with tipo := .str "" } discoUm
        = (.erro 400 "Tipo deve ser \"gasto\" ou \"receita\"", discoUm)
    ∧ putLancamentos "a1" exemploTipoVazio discoUm = (.lancamento 200 lancamentoUm, discoUm) := by
  have ht : trim "   " = "" := by decide
  refine ⟨?_, ?_, ?_, ?_⟩
  · have hc : categoriaVazia (.str "   ") = some true := by decide
    simp [postLancamentos, exemploValido, JVal.truthy, incluiTipo, JVal.ehNumero,
      JVal.numero, hc]
  · simp [putLancamentos, exemploCategoriaEspacos, corpoVazio, JVal.truthy, incluiTipo,
      JVal.ehNumero, JVal.numero, JVal.texto, lerDados, salvarDados, discoUm, lancamentoUm,
      findIndex, aplicarCampos, chamarTrim, ht]
  · simp [postLancamentos, exemploValido, JVal.truthy]
  · simp [putLancamentos, exemploTipoVazio, corpoVazio, JVal.truthy, incluiTipo,
      JVal.ehNumero, JVal.numero, JVal.texto, lerDados, salvarDados, discoUm, lancamentoUm,
      findIndex, aplicarCampos, chamarTrim]

/-- C8 (code at the failing input): when the file exists and cannot be parsed,
`lerDados` returns the initial ledger and no error, `GET /api/dados` answers 200
with that ledger, and a create or set-balance request issued in that state
answers success and overwrites the file with a ledger built on the initial
one. -/
theorem C8_leitura_falha_sobrescreve :
    lerDados discoIlegivel = (dadosIniciais, discoIlegivel)
    ∧ getDados discoIlegivel = (.dados 200 dadosIniciais, discoIlegivel)
    ∧ postLancamentos "id1" exemploValido discoIlegivel
        = (.lancamento 201
            { id := "id1", tipo := "gasto", valor := 30, categoria := "food", descricao := "",
              data := "2024-03-05" },
           { arquivo := .valido
               { saldo := 0,
                 lancamentos :=
                   [{ id := "id1", tipo := "gasto", valor := 30, categoria := "food",
                      descricao := "", data := "2024-03-05" }] },
             gravavel := true })
    ∧ postSaldo { corpoVazio with saldo := .num 5 } discoIlegivel
        = (.saldo 200 5,
           { arquivo := .valido { saldo := 5, lancamentos := [] }, gravavel := true }) := by
  have hv : validarDataJ (.str "2024-03-05") = true := by decide
  have hc : categoriaVazia (.str "food") = some false := by decide
  have ht : trim "food" = "food" := by decide
  have hd : descricaoTrim .undefined = some "" := by decide
  refine ⟨rfl, rfl, ?_, ?_⟩
  · simp [postLancamentos, exemploValido, JVal.truthy, incluiTipo, JVal.ehNumero,
      JVal.numero, JVal.texto, hc, hv, chamarTrim, hd, ht, lerDados, salvarDados, discoIlegivel,
      dadosIniciais]
    norm_num [arredondar, toFixed2]
  · simp [postSaldo, corpoVazio, JVal.ehNumero, JVal.numero, lerDados, salvarDados,
      discoIlegivel, dadosIniciais]

/-- C10 (code at the failing input): `validarData` accepts '2024-02-31' and
'2023-02-29', which are not calendar dates, and rejects '2024-13-01' and
'2024-00-10'; the real date '2024-02-29' is accepted; the create handler stores
an entry dated '2024-02-31'. -/
theorem C10_validarData_aceita_dia_inexistente :
    validarData "2024-02-31" = true ∧ dataDeCalendario "2024-02-31" = false
    ∧ validarData "2023-02-29" = true ∧ dataDeCalendario "2023-02-29" = false
    ∧ validarData "2024-13-01" = false ∧ validarData "2024-00-10" = false
    ∧ validarData "2024-02-29" = true ∧ dataDeCalendario "2024-02-29" = true
    ∧ postLancamentos "id1"
          { tipo := .str "gasto", valor := .num 30, categoria := .str "food",
            descricao := .undefined, data := .str "2024-02-31", saldo := .undefined }
          discoInicial
        = (.lancamento 201
            { id := "id1", tipo := "gasto", valor := 30, categoria := "food", descricao := "",
              data := "2024-02-31" },
           { arquivo := .valido
               { saldo := 0,
                 lancamentos :=
                   [{ id := "id1", tipo := "gasto", valor := 30, categoria := "food",
                      descricao := "", data := "2024-02-31" }] },
             gravavel := true }) := by
  have hv : validarDataJ (.str "2024-02-31") = true := by decide
  have hc : categoriaVazia (.str "food") = some false := by decide
  have ht : trim "food" = "food" := by decide
  have hd : descricaoTrim .undefined = some "" := by decide
  refine ⟨by decide, by decide, by decide, by decide, by decide, by decide, by decide,
    by decide, ?_⟩
  simp [postLancamentos, JVal.truthy, incluiTipo, JVal.ehNumero,
    JVal.numero, JVal.texto, hc, hv, chamarTrim, hd, ht, lerDados, salvarDados, discoInicial,
    dadosIniciais]
  norm_num [arredondar, toFixed2]

/-! ## Lemmas for the views of script.js -/

/-- The parts of a date that is a real calendar date: shape, month and day
ranges. -/
theorem dataDeCalendario_partes (s : String) (h : dataDeCalendario s = true) :
    regexData s.data = true ∧ 1 ≤ mesDe s.data ∧ mesDe s.data ≤ 12 ∧ 1 ≤ diaDe s.data
      ∧ diaDe s.data ≤ diasNoMes (anoDe s.data) (mesDe s.data) := by
  simp only [dataDeCalendario, Bool.and_eq_true, decide_eq_true_eq] at h
  obtain ⟨⟨⟨⟨h1, h2⟩, h3⟩, h4⟩, h5⟩ := h
  exact ⟨h1, h2, h3, h4, h5⟩

/-- For a real calendar date the local Date fields are the year, month and day
written in the string. -/
theorem camposLocais_de_calendario (s : String) (h : dataDeCalendario s = true) :
    camposLocais s = some (anoDe s.data, mesDe s.data, diaDe s.data) := by
  obtain ⟨h1, h2, h3, h4, h5⟩ := dataDeCalendario_partes s h
  have h6 := diasNoMes_le (anoDe s.data) (mesDe s.data)
  have hv : novaDataValida s.data = true := by
    simp [novaDataValida, h2, h3, h4]
    omega
  simp [camposLocais, h1, hv, h5]

/-- A digit is not the separator '-'. -/
theorem digito_nao_hifen (c : Char) (h : c.isDigit = true) : (c == '-') = false := by
  have h1 : c ≠ '-' := by
    rintro rfl
    revert h
    decide
  simpa using h1

/-- The year and month a month filter of the shape `YYYY-MM` is split into. -/
theorem anoMesDoFiltro_forma (s : String) (h : formaMes s.data = true) :
    anoMesDoFiltro s = (some (anoDe s.data), some (mesDe s.data)) := by
  rcases s with ⟨cs⟩
  match cs, h with
  | [a, b, c, d, h1, e, f], h =>
    simp only [formaMes, Bool.and_eq_true, beq_iff_eq] at h
    obtain ⟨⟨⟨⟨⟨⟨ha, hb⟩, hc⟩, hd⟩, hh⟩, he⟩, hf⟩ := h
    subst hh
    simp [anoMesDoFiltro, separar, digito_nao_hifen, ha, hb, hc, hd, he, hf, numeroDe, anoDe,
      mesDe]
    ring

/-- The filtered list is a sub-list of the entries, whatever the filters. -/
theorem lancamentosFiltrados_sublist (f : Filtros) (ls : List Lancamento) :
    (lancamentosFiltrados f ls).Sublist ls := by
  unfold lancamentosFiltrados
  split_ifs
  · exact List.filter_sublist _
  · exact List.filter_sublist _
  · exact List.Sublist.refl _

/-- Two filters of a list that agree on its elements give the same list. -/
theorem filter_congr_mem {α : Type} (p q : α → Bool) (l : List α)
    (h : ∀ x ∈ l, p x = q x) : l.filter p = l.filter q := by
  induction l with
  | nil => rfl
  | cons a as ih =>
    have ha := h a (List.mem_cons_self _ _)
    have ih' := ih (fun x hx => h x (List.mem_cons_of_mem _ hx))
    simp [List.filter_cons, ha, ih']

/-- Inserting an element gives a permutation of the list with that element in
front. -/
theorem inserir_perm {α : Type} (cmp : α → α → Int) (x : α) (l : List α) :
    (inserir cmp x l).Perm (x :: l) := by
  induction l with
  | nil => exact List.Perm.refl _
  | cons y ys ih =>
    simp only [inserir]
    split_ifs
    · exact List.Perm.refl _
    · exact (List.Perm.cons y ih).trans (List.Perm.swap x y ys)

/-- The sorted list is a permutation of the list. -/
theorem sort_perm {α : Type} (cmp : α → α → Int) (l : List α) : (sort cmp l).Perm l := by
  induction l with
  | nil => exact List.Perm.refl _
  | cons x xs ih => exact (inserir_perm cmp x (sort cmp xs)).trans (List.Perm.cons x ih)

/-- Inserting into a list that is in non-increasing order of a key keeps that
order, when the comparator compares the new element with the others by that
key. -/
theorem inserir_ordenada {α : Type} (cmp : α → α → Int) (key : α → Int) (x : α) (l : List α)
    (hl : l.Pairwise (fun a b => key b ≤ key a))
    (hx : ∀ y ∈ l, (cmp x y ≤ 0 ↔ key y ≤ key x)) :
    (inserir cmp x l).Pairwise (fun a b => key b ≤ key a) := by
  induction l with
  | nil => simp [inserir]
  | cons y ys ih =>
    have hy := hx y (List.mem_cons_self _ _)
    rw [List.pairwise_cons] at hl
    simp only [inserir]
    split_ifs with hc
    · rw [List.pairwise_cons]
      refine ⟨?_, List.pairwise_cons.2 hl⟩
      intro z hz
      rcases List.mem_cons.1 hz with rfl | hz'
      · exact hy.1 hc
      · exact le_trans (hl.1 z hz') (hy.1 hc)
    · rw [List.pairwise_cons]
      refine ⟨?_, ih hl.2 (fun z hz => hx z (List.mem_cons_of_mem _ hz))⟩
      intro z hz
      rcases List.mem_cons.1 ((inserir_perm cmp x ys).mem_iff.1 hz) with rfl | hz'
      · have : ¬ key y ≤ key z := fun h => hc (hy.2 h)
        omega
      · exact hl.1 z hz'

/-- The sorted list is in non-increasing order of a key, when the comparator
compares the elements of the list by that key. -/
theorem sort_ordenada {α : Type} (cmp : α → α → Int) (key : α → Int) (l : List α)
    (h : ∀ x ∈ l, ∀ y ∈ l, (cmp x y ≤ 0 ↔ key y ≤ key x)) :
    (sort cmp l).Pairwise (fun a b => key b ≤ key a) := by
  induction l with
  | nil => simp [sort]
  | cons x xs ih =>
    simp only [sort]
    apply inserir_ordenada
    · exact ih (fun a ha b hb => h a (List.mem_cons_of_mem _ ha) b (List.mem_cons_of_mem _ hb))
    · intro y hy
      exact h x (List.mem_cons_self _ _) y
        (List.mem_cons_of_mem _ ((sort_perm cmp xs).mem_iff.1 hy))

/-- Inserting an element does not move it past an element of its own class: the
elements of a class that the comparator does not separate stay in the order
"new element first". -/
theorem inserir_filter {α : Type} (cmp : α → α → Int) (p : α → Bool) (x : α) (l : List α)
    (h : ∀ y ∈ l, p x = true → p y = true → cmp x y ≤ 0) :
    (inserir cmp x l).filter p = (x :: l).filter p := by
  induction l with
  | nil => rfl
  | cons y ys ih =>
    have ih' := ih (fun z hz => h z (List.mem_cons_of_mem _ hz))
    simp only [inserir]
    split_ifs with hc
    · rfl
    · have hxy : ¬ (p x = true ∧ p y = true) := fun hp =>
        hc (h y (List.mem_cons_self _ _) hp.1 hp.2)
      by_cases hpx : p x = true
      · have hpy : p y = false := by
          cases hy : p y
          · rfl
          · exact absurd ⟨hpx, hy⟩ hxy
        simp [List.filter_cons, hpy, ih']
      · have hpx' : p x = false := by simpa using hpx
        simp [List.filter_cons, hpx', ih']

/-- Stability: the elements of a class that the comparator does not separate
appear in the sorted list in the order they have in the list. -/
theorem sort_filter {α : Type} (cmp : α → α → Int) (p : α → Bool) (l : List α)
    (h : ∀ x ∈ l, ∀ y ∈ l, p x = true → p y = true → cmp x y ≤ 0) :
    (sort cmp l).filter p = l.filter p := by
  induction l with
  | nil => rfl
  | cons x xs ih =>
    have ih' := ih (fun a ha b hb => h a (List.mem_cons_of_mem _ ha) b (List.mem_cons_of_mem _ hb))
    simp only [sort]
    rw [inserir_filter]
    · simp [List.filter_cons, ih']
    · intro y hy
      exact h x (List.mem_cons_self _ _) y
        (List.mem_cons_of_mem _ ((sort_perm cmp xs).mem_iff.1 hy))

/-- From one year to the next the day count grows by the length of the year. -/
theorem diasAntesDoAno_succ (y : Nat) :
    diasAntesDoAno (y + 1) = diasAntesDoAno y + 365 + (if anoBissexto y then 1 else 0) := by
  have hb : anoBissexto y = true ↔ (y % 4 = 0 ∧ y % 100 ≠ 0) ∨ y % 400 = 0 := by
    simp [anoBissexto]
  have h1 : (y + 1 + 3) / 4 = (y + 3) / 4 + (if y % 4 = 0 then 1 else 0) := by
    split_ifs <;> omega
  have h2 : (y + 1 + 99) / 100 = (y + 99) / 100 + (if y % 100 = 0 then 1 else 0) := by
    split_ifs <;> omega
  have h3 : (y + 1 + 399) / 400 = (y + 399) / 400 + (if y % 400 = 0 then 1 else 0) := by
    split_ifs <;> omega
  have h4 : (y + 99) / 100 ≤ (y + 3) / 4 := by omega
  have h5 : (y + 1 + 99) / 100 ≤ (y + 1 + 3) / 4 := by omega
  have e4 : y % 400 = 0 → y % 100 = 0 ∧ y % 4 = 0 := by omega
  have e5 : y % 100 = 0 → y % 4 = 0 := by omega
  unfold diasAntesDoAno
  generalize (y + 1 + 3) / 4 = a at *
  generalize (y + 1 + 99) / 100 = b at *
  generalize (y + 1 + 399) / 400 = c at *
  generalize (y + 3) / 4 = a' at *
  generalize (y + 99) / 100 = b' at *
  generalize (y + 399) / 400 = c' at *
  by_cases h : anoBissexto y = true
  · have := hb.1 h
    rw [if_pos h]
    split_ifs at h1 h2 h3 <;> omega
  · have := mt hb.2 h
    rw [if_neg h]
    split_ifs at h1 h2 h3 <;> omega

/-- The day count of the years does not decrease. -/
theorem diasAntesDoAno_mono {y z : Nat} (h : y ≤ z) : diasAntesDoAno y ≤ diasAntesDoAno z := by
  induction z with
  | zero =>
    have : y = 0 := by omega
    subst this
    exact le_refl _
  | succ n ih =>
    by_cases hy : y = n + 1
    · subst hy
      exact le_refl _
    · have := ih (by omega)
      rw [diasAntesDoAno_succ]
      omega

/-- The months of a year follow one another: the day count before a month plus
its length is the day count before the next month, or the length of the year
after December. -/
theorem diasAntesDoMes_succ (y m : Nat) (h1 : 1 ≤ m) (h12 : m ≤ 12) :
    diasAntesDoMes y m + diasNoMes y m
      = if m = 12 then 365 + (if anoBissexto y then 1 else 0) else diasAntesDoMes y (m + 1) := by
  interval_cases m <;> cases hb : anoBissexto y <;> simp [diasAntesDoMes, diasNoMes, hb]

/-- The day count before a month does not decrease along the year. -/
theorem diasAntesDoMes_mono (y : Nat) {m n : Nat} (h1 : 1 ≤ m) (h : m ≤ n) (h12 : n ≤ 12) :
    diasAntesDoMes y m ≤ diasAntesDoMes y n := by
  interval_cases n <;> interval_cases m <;> cases hb : anoBissexto y <;>
    simp [diasAntesDoMes, hb]

/-- The day count before a month plus the length of the month stays within the
year. -/
theorem diasAntesDoMes_le (y m : Nat) (h1 : 1 ≤ m) (h12 : m ≤ 12) :
    diasAntesDoMes y m + diasNoMes y m ≤ 365 + (if anoBissexto y then 1 else 0) := by
  interval_cases m <;> cases hb : anoBissexto y <;> simp [diasAntesDoMes, diasNoMes, hb]

/-- For real calendar dates the day number grows strictly with the calendar
order of (year, month, day). -/
theorem numeroDoDia_lt (y m d y' m' d' : Nat)
    (hm1 : 1 ≤ m) (hm12 : m ≤ 12) (hd1 : 1 ≤ d) (hd : d ≤ diasNoMes y m)
    (hm1' : 1 ≤ m') (hm12' : m' ≤ 12) (hd1' : 1 ≤ d') (hd' : d' ≤ diasNoMes y' m')
    (h : y * 10000 + m * 100 + d < y' * 10000 + m' * 100 + d') :
    diasAntesDoAno y + diasAntesDoMes y m + (d - 1)
      < diasAntesDoAno y' + diasAntesDoMes y' m' + (d' - 1) := by
  have hle := diasNoMes_le y m
  have hle' := diasNoMes_le y' m'
  by_cases hy : y < y'
  · have h1 := diasAntesDoAno_mono (show y + 1 ≤ y' from hy)
    have h2 := diasAntesDoAno_succ y
    have h3 := diasAntesDoMes_le y m hm1 hm12
    omega
  · by_cases hyy : y = y'
    · subst hyy
      by_cases hmm : m < m'
      · have h1 := diasAntesDoMes_mono y (show 1 ≤ m + 1 by omega) (show m + 1 ≤ m' from hmm) hm12'
        have h2 := diasAntesDoMes_succ y m hm1 hm12
        have h3 : m ≠ 12 := by omega
        simp only [h3, if_false] at h2
        omega
      · have : m = m' := by omega
        subst this
        omega
    · exfalso
      omega

/-- For a real calendar date the time value of `new Date(s)` is the day number of
the date, counted in milliseconds from 1 January 1970. -/
theorem tempoDe_de_calendario (s : String) (h : dataDeCalendario s = true) :
    tempoDe s = some (86400000 *
      (((diasAntesDoAno (anoDe s.data) + diasAntesDoMes (anoDe s.data) (mesDe s.data)
          + (diaDe s.data - 1) : Nat) : Int) - 719528)) := by
  obtain ⟨h1, h2, h3, h4, h5⟩ := dataDeCalendario_partes s h
  have h6 := diasNoMes_le (anoDe s.data) (mesDe s.data)
  have hv : novaDataValida s.data = true := by
    simp [novaDataValida, h2, h3, h4]
    omega
  simp [tempoDe, h1, hv]

/-- Between two real calendar dates the comparator lets the first entry precede
the second exactly when the second is not later in day number. -/
theorem compararData_iff (a b : Lancamento) (ha : dataDeCalendario a.data = true)
    (hb : dataDeCalendario b.data = true) :
    compararData a b ≤ 0 ↔
      ((diasAntesDoAno (anoDe b.data.data) + diasAntesDoMes (anoDe b.data.data) (mesDe b.data.data)
          + (diaDe b.data.data - 1) : Nat) : Int)
        ≤ ((diasAntesDoAno (anoDe a.data.data)
            + diasAntesDoMes (anoDe a.data.data) (mesDe a.data.data)
            + (diaDe a.data.data - 1) : Nat) : Int) := by
  simp only [compararData, tempoDe_de_calendario a.data ha, tempoDe_de_calendario b.data hb]
  constructor <;> intro h <;> omega

/-- Between two real calendar dates, a day number that is not later means a date
that is not later in the calendar. -/
theorem chaveData_le (s t : String) (hs : dataDeCalendario s = true)
    (ht : dataDeCalendario t = true)
    (h : diasAntesDoAno (anoDe t.data) + diasAntesDoMes (anoDe t.data) (mesDe t.data)
          + (diaDe t.data - 1)
        ≤ diasAntesDoAno (anoDe s.data) + diasAntesDoMes (anoDe s.data) (mesDe s.data)
          + (diaDe s.data - 1)) :
    chaveData t ≤ chaveData s := by
  obtain ⟨-, s2, s3, s4, s5⟩ := dataDeCalendario_partes s hs
  obtain ⟨-, t2, t3, t4, t5⟩ := dataDeCalendario_partes t ht
  by_contra hlt
  have hlt' : chaveData s < chaveData t := by omega
  have := numeroDoDia_lt _ _ _ _ _ _ s2 s3 s4 s5 t2 t3 t4 t5 hlt'
  omega

/-- The comparator does not separate two entries with the same date string. -/
theorem compararData_mesma_data (a b : Lancamento) (h : a.data = b.data) :
    compararData a b ≤ 0 := by
  simp only [compararData, h]
  cases tempoDe b.data <;> simp

/-- C11 (amended): the period filter of `renderizarLista`, which `exportarCSV`
repeats as it is, always gives a sub-list of the entries. For entries with valid
calendar dates: with a month filter `YYYY-MM` set, the result is exactly the
entries whose date has that year and that month, whatever the year filter (and
`aplicarFiltros` clears the year filter when a month is given); with no month
filter and a year filter other than 0, it is exactly the entries of that year;
with no filter it is all the entries. With month filter 2024-03 an entry dated
2024-03-31 is kept and one dated 2024-04-01 is left out. -/
theorem C11_filtro_periodo (f : Filtros) (ls : List Lancamento) :
    (lancamentosFiltrados f ls).Sublist ls
    ∧ lancamentosParaExportar f ls = lancamentosFiltrados f ls
    ∧ ((∀ l ∈ ls, dataDeCalendario l.data = true) →
        (∀ s, f.filtroMes = some s → formaMes s.data = true →
          lancamentosFiltrados f ls
            = ls.filter (fun l =>
                anoDe l.data.data == anoDe s.data && mesDe l.data.data == mesDe s.data))
        ∧ (∀ y, mesAtivo f = false → f.filtroAno = some y → y ≠ 0 →
          lancamentosFiltrados f ls = ls.filter (fun l => (anoDe l.data.data : Int) == y)))
    ∧ (mesAtivo f = false → f.filtroAno = none → lancamentosFiltrados f ls = ls)
    ∧ (∀ mes ano, mes ≠ "" → aplicarFiltros mes ano = { filtroMes := some mes, filtroAno := none })
    ∧ lancamentosFiltrados filtroMarco [lancamentoMarco, lancamentoAbril] = [lancamentoMarco] := by
  refine ⟨lancamentosFiltrados_sublist f ls, rfl, ?_, ?_, ?_, ?_⟩
  · intro hval
    refine ⟨?_, ?_⟩
    · intro s hs hforma
      have hne : s ≠ "" := by
        rintro rfl
        revert hforma
        decide
      have hm : mesAtivo f = true := by simp [mesAtivo, hs, hne]
      simp only [lancamentosFiltrados, hm, if_true, hs, Option.getD_some,
        anoMesDoFiltro_forma s hforma]
      apply filter_congr_mem
      intro l hl
      simp only [noMes, camposLocais_de_calendario l.data (hval l hl)]
      exact Bool.and_comm _ _
    · intro y hm hy hy0
      have ha : anoAtivo f = true := by simp [anoAtivo, hy, hy0]
      simp only [lancamentosFiltrados, hm, ha, if_true, hy, Option.getD_some]
      apply filter_congr_mem
      intro l hl
      simp only [noAno, camposLocais_de_calendario l.data (hval l hl)]
  · intro hm hy
    have ha : anoAtivo f = false := by simp [anoAtivo, hy]
    simp [lancamentosFiltrados, hm, ha]
  · intro mes ano hmes
    simp [aplicarFiltros, hmes]
  · decide

/-- C11 (witness): the month case and the year case at concrete filters over two
entries with valid dates. -/
theorem C11_filtro_periodo_witness :
    lancamentosFiltrados filtroMarco [lancamentoMarco, lancamentoAbril]
        = [lancamentoMarco, lancamentoAbril].filter (fun l =>
            anoDe l.data.data == anoDe "2024-03".data
              && mesDe l.data.data == mesDe "2024-03".data)
    ∧ lancamentosFiltrados { filtroMes := none, filtroAno := some 2024 }
          [lancamentoMarco, lancamentoAbril]
        = [lancamentoMarco, lancamentoAbril].filter (fun l =>
            (anoDe l.data.data : Int) == 2024) :=
  ⟨((C11_filtro_periodo filtroMarco [lancamentoMarco, lancamentoAbril]).2.2.1
      (by decide)).1 "2024-03" rfl (by decide),
   ((C11_filtro_periodo { filtroMes := none, filtroAno := some 2024 }
      [lancamentoMarco, lancamentoAbril]).2.2.1 (by decide)).2 2024 rfl rfl (by decide)⟩

/-- C11 (counterexample): the year 0 typed in the year input leaves no month
filter and the year filter 0; the result is then the whole list, although its
only entry is dated 2024 and no entry is of year 0. -/
theorem C11_contraexemplo :
    aplicarFiltros "" "0" = filtroAnoZero
    ∧ dataDeCalendario lancamentoMarco.data = true
    ∧ lancamentosFiltrados filtroAnoZero [lancamentoMarco] = [lancamentoMarco]
    ∧ [lancamentoMarco].filter (fun l => (anoDe l.data.data : Int) == 0) = []
    ∧ lancamentosFiltrados filtroAnoZero [lancamentoMarco]
        ≠ [lancamentoMarco].filter (fun l => (anoDe l.data.data : Int) == 0) := by
  decide

/-- C13 (code at the failing input): for the expenses food 10, food 5,
transport 7 the chart gets food 15 then transport 7, and an income entry adds
nothing; but for the expenses food 10 then "2024" 5 the keys come out as "2024"
then food, because an object lists a name that is an array index before the
other names: the order of first occurrence is lost. -/
theorem C13_ordem_das_categorias :
    porCategoria [lancamentoDe "gasto" "food" 10, lancamentoDe "gasto" "food" 5,
        lancamentoDe "gasto" "transport" 7]
      = [("food", 15), ("transport", 7)]
    ∧ categoriasEValores { filtroMes := some "2024-03", filtroAno := none } 2026 11
        [lancamentoDe "gasto" "food" 10, lancamentoDe "receita" "salary" 50,
         lancamentoDe "gasto" "food" 5, lancamentoDe "gasto" "transport" 7]
      = (["food", "transport"], [15, 7])
    ∧ porCategoria [lancamentoDe "gasto" "food" 10, lancamentoDe "gasto" "2024" 5]
      = [("2024", 5), ("food", 10)]
    ∧ categoriasEValores { filtroMes := some "2024-03", filtroAno := none } 2026 11
        [lancamentoDe "gasto" "food" 10, lancamentoDe "gasto" "2024" 5]
      = (["2024", "food"], [5, 10]) := by
  have p1 : precede "transport" "food" = false := by decide
  have p2 : precede "2024" "food" = true := by decide
  have g1 : gastosParaGrafico { filtroMes := some "2024-03", filtroAno := none } 2026 11
        [lancamentoDe "gasto" "food" 10, lancamentoDe "receita" "salary" 50,
         lancamentoDe "gasto" "food" 5, lancamentoDe "gasto" "transport" 7]
      = [lancamentoDe "gasto" "food" 10, lancamentoDe "gasto" "food" 5,
         lancamentoDe "gasto" "transport" 7] := by
    have a : anoMesDoFiltro "2024-03" = (some 2024, some 3) := by decide
    have c : camposLocais "2024-03-05" = some (2024, 3, 5) := by decide
    simp [gastosParaGrafico, mesAtivo, a, noMes, lancamentoDe, c]
  have g2 : gastosParaGrafico { filtroMes := some "2024-03", filtroAno := none } 2026 11
        [lancamentoDe "gasto" "food" 10, lancamentoDe "gasto" "2024" 5]
      = [lancamentoDe "gasto" "food" 10, lancamentoDe "gasto" "2024" 5] := by
    have a : anoMesDoFiltro "2024-03" = (some 2024, some 3) := by decide
    have c : camposLocais "2024-03-05" = some (2024, 3, 5) := by decide
    simp [gastosParaGrafico, mesAtivo, a, noMes, lancamentoDe, c]
  have h1 : porCategoria [lancamentoDe "gasto" "food" 10, lancamentoDe "gasto" "food" 5,
        lancamentoDe "gasto" "transport" 7]
      = [("food", 15), ("transport", 7)] := by
    simp [porCategoria, somarCategoria, lerPropriedade, definirPropriedade, criarPropriedade,
      lancamentoDe, p1]
    norm_num
  have h2 : porCategoria [lancamentoDe "gasto" "food" 10, lancamentoDe "gasto" "2024" 5]
      = [("2024", 5), ("food", 10)] := by
    simp [porCategoria, somarCategoria, lerPropriedade, definirPropriedade, criarPropriedade,
      lancamentoDe, p2]
  refine ⟨h1, ?_, h2, ?_⟩
  · simp [categoriasEValores, g1, h1]
  · simp [categoriasEValores, g2, h2]

/-- C14: for every entry list with valid calendar dates and every filter state,
the list `renderizarLista` shows is a permutation of the filtered list, its
dates are non-increasing from first to last, and entries with the same date keep
the relative order they have in the filtered list: any two of them that appear
in some order in the filtered list appear in that order in the shown list, and
for each date the entries of that date form the same sequence in both. -/
theorem C14_ordem_exibida (f : Filtros) (ls : List Lancamento)
    (hval : ∀ l ∈ ls, dataDeCalendario l.data = true) :
    (listaExibida f ls).Perm (lancamentosFiltrados f ls)
    ∧ (listaExibida f ls).Pairwise (fun a b => chaveData b.data ≤ chaveData a.data)
    ∧ (∀ a b, a.data = b.data → [a, b].Sublist (lancamentosFiltrados f ls) →
        [a, b].Sublist (listaExibida f ls))
    ∧ (∀ k, (listaExibida f ls).filter (fun l => l.data == k)
        = (lancamentosFiltrados f ls).filter (fun l => l.data == k)) := by
  have hsub := lancamentosFiltrados_sublist f ls
  have hv : ∀ l ∈ lancamentosFiltrados f ls, dataDeCalendario l.data = true :=
    fun l hl => hval l (hsub.subset hl)
  have hperm := sort_perm compararData (lancamentosFiltrados f ls)
  have hest : ∀ k, (listaExibida f ls).filter (fun l => l.data == k)
      = (lancamentosFiltrados f ls).filter (fun l => l.data == k) := by
    intro k
    apply sort_filter
    intro x _ y _ hx hy
    apply compararData_mesma_data
    simp only [beq_iff_eq] at hx hy
    rw [hx, hy]
  refine ⟨hperm, ?_, ?_, hest⟩
  · have hord := sort_ordenada compararData
      (fun l => ((diasAntesDoAno (anoDe l.data.data)
          + diasAntesDoMes (anoDe l.data.data) (mesDe l.data.data)
          + (diaDe l.data.data - 1) : Nat) : Int))
      (lancamentosFiltrados f ls)
      (fun x hx y hy => compararData_iff x y (hv x hx) (hv y hy))
    refine List.Pairwise.imp_of_mem ?_ hord
    intro a b ha hb hab
    have ha' := hv a (hperm.mem_iff.1 ha)
    have hb' := hv b (hperm.mem_iff.1 hb)
    simp only [Nat.cast_le] at hab
    exact chaveData_le a.data b.data ha' hb' hab
  · intro a b hab hsl
    have h1 : ([a, b].filter (fun l => l.data == a.data)).Sublist
        ((lancamentosFiltrados f ls).filter (fun l => l.data == a.data)) := hsl.filter _
    have h2 : [a, b].filter (fun l => l.data == a.data) = [a, b] := by
      simp [List.filter_cons, hab]
    rw [h2, ← hest a.data] at h1
    exact h1.trans (List.filter_sublist _)

/-- C14 (witness): the statement for the two example entries, under the month
filter 2024-03 and under no filter. -/
theorem C14_ordem_exibida_witness :
    (listaExibida filtroMarco [lancamentoMarco, lancamentoAbril]).Perm
        (lancamentosFiltrados filtroMarco [lancamentoMarco, lancamentoAbril])
    ∧ (listaExibida { filtroMes := none, filtroAno := none }
          [lancamentoMarco, lancamentoAbril]).Pairwise
        (fun a b => chaveData b.data ≤ chaveData a.data)
    ∧ listaExibida { filtroMes := none, filtroAno := none } [lancamentoMarco, lancamentoAbril]
        = [lancamentoAbril, lancamentoMarco] :=
  ⟨(C14_ordem_exibida filtroMarco [lancamentoMarco, lancamentoAbril] (by decide)).1,
   (C14_ordem_exibida { filtroMes := none, filtroAno := none }
      [lancamentoMarco, lancamentoAbril] (by decide)).2.1,
   by decide⟩

end ControleDeGastos
